import Mathlib

/-!
Shallow embedding of `saleor/webhook/payloads.py`: the webhook payload
composers (orders, checkouts, fulfillments, sales, payments, samples),
the catalogue diff helpers, and the meta/requestor envelope.

Python dicts are embedded as insertion-ordered association lists over
`String` keys with JSON-like values (`JVal`).  External collaborators
(the id encoder, the price quantizer, the pricing engine, the
anonymizer) are passed in as function parameters, mirroring the imports
of the source file.  Constructs of the repository that are not part of
the source file under study (the generic `PayloadSerializer` merge
rules, `get_base_price`, `quantize_price_fields`) are modelled from the
spec and marked as such in their doc comments.
-/

namespace SaleorPayloads

/-- JSON-compatible value, the codomain of every payload record. -/
inductive JVal where
  | str (s : String)
  | num (q : ℚ)
  | bool (b : Bool)
  | null
  | arr (xs : List JVal)
  | obj (fields : List (String × JVal))

/-- A payload record: an insertion-ordered mapping from field name to value,
embedding a Python dict. -/
abbrev Rec := List (String × JVal)

/-- First-match lookup in an association list (Python `d[k]` read / `d.get(k)`). -/
def lookupKey : List (String × α) → String → Option α
  | [], _ => none
  | (k, v) :: rest, key => if k == key then some v else lookupKey rest key

/-- Whether a key is present (Python `k in d`). -/
def containsKey : List (String × α) → String → Bool
  | [], _ => false
  | (k, _) :: rest, key => k == key || containsKey rest key

/-- The key list of a record, in insertion order (Python `d.keys()`). -/
def keysOf (l : List (String × α)) : List String := l.map Prod.fst

/-- Python `dict.update`: keys already present keep their position but take the
new value; keys of `ext` not present in `base` are appended in order. -/
def dictUpdate (base ext : List (String × α)) : List (String × α) :=
  base.map (fun kv => (kv.1, (lookupKey ext kv.1).getD kv.2))
    ++ ext.filter (fun kv => !(containsKey base kv.1))

/-- Python `d[k] = v`: replace in place when present, append otherwise. -/
def setKey (l : List (String × α)) (k : String) (v : α) : List (String × α) :=
  dictUpdate l [(k, v)]

/-! ### External collaborators

The source file imports its id encoder (`graphene.Node.to_global_id`),
price quantizer (`quantize_price`), clock (`timezone.now()`), build
version (`__version__`) and key-casing transform (`to_camel_case`) from
outside.  They are bundled here as an explicit context value. -/

/-- The ambient collaborators of `payloads.py`.  `encode ty pk` stands for
`graphene.Node.to_global_id(ty, pk)` (the pk may be `None`, e.g. for
`order.original_id` or an anonymous user id); `quantize q c` stands for
`quantize_price(q, c)`. -/
structure Ctx where
  encode : String → Option Int → String
  quantize : ℚ → String → ℚ
  now : String
  version : String
  toCamelCase : String → String
  includeTaxesInPrices : Bool

/-- An entity whose serialized fields are plain model attributes: Django
attribute access `getattr(entity, field)` becomes function application. -/
abbrev AttrEntity := String → JVal

/-- `serializer.serialize(objs, fields=...)` copies each field name to the
attribute value, in field order. -/
def serializeAttrFields (e : AttrEntity) (fields : List String) : Rec :=
  fields.map (fun f => (f, e f))

/-- Modelled from the spec: `quantize_price_fields(entity, price_fields,
currency)` (imported from `core.prices`, not under `src/`) quantizes the
named numeric attributes of an entity in place; here it wraps the
attribute view. -/
def quantize_price_fields (e : AttrEntity) (priceFields : List String)
    (quantize : ℚ → String → ℚ) (currency : String) : AttrEntity :=
  fun k =>
    if priceFields.contains k then
      match e k with
      | .num q => .num (quantize q currency)
      | v => v
    else e k

/-- Modelled from the spec: the record-merge rule of
`PayloadSerializer.serialize` (imported from `.payload_serializers`, not
under `src/`).  Each record gets an id field via the injected id encoder
unless `extra_dict_data` overrides it; a name in both `fields` and
`extra_dict_data` takes the `extra_dict_data` value; `additional_fields`
are serialized relations; new extra keys are appended. -/
def serializeRecord (idEntry : Option (String × JVal)) (fieldVals : Rec)
    (additional : Rec) (extra : Rec) : Rec :=
  dictUpdate (idEntry.elim [] (fun kv => [kv]) ++ fieldVals ++ additional) extra

/-- Modelled from the spec: an `additional_fields` entry whose accessor
returns an optional related object; absence of the relation resolves to
`null`, not an error. -/
def serializeAdditionalOpt (rel : Option AttrEntity) (fields : List String) : JVal :=
  match rel with
  | none => .null
  | some e => .obj (serializeAttrFields e fields)

/-- Modelled from the spec: an `additional_fields` entry whose accessor
returns a sequence of related objects. -/
def serializeAdditionalList (rels : List AttrEntity) (fields : List String) : JVal :=
  .arr (rels.map (fun e => .obj (serializeAttrFields e fields)))

/-! ### Requestor / meta envelope (`generate_requestor`, `generate_meta`) -/

/-- The issuing principal handed to `generate_requestor`.  A `User` or
`AnonymousUser` instance maps to `user` (an `AnonymousUser` has id `None`);
any other requestor (an app) maps to `app`.  `Option Requestor` embeds the
`Optional` parameter: only `None` is falsy for `if not requestor`, since
Django model instances and `AnonymousUser` are truthy. -/
inductive Requestor where
  | user (id : Option Int)
  | app (name : String)

/-- `generate_requestor` from the source. -/
def generate_requestor (encode : String → Option Int → String) :
    Option Requestor → Rec
  | none => [("id", .null), ("type", .null)]
  | some (.user i) => [("id", .str (encode "User" i)), ("type", .str "user")]
  | some (.app n) => [("id", .str n), ("type", .str "app")]

/-- `generate_meta` from the source: the core envelope dict is built, then
`meta_result.update(kwargs)` merges the caller-supplied extension keys, then
the optional camel-case transform maps every key. -/
def generate_meta (now version : String) (toCamel : String → String)
    (requestorData : Rec) (camelCase : Bool) (kwargs : Rec) : Rec :=
  let metaResult := dictUpdate
    [("issued_at", .str now), ("version", .str version),
      ("issuing_principal", .obj requestorData)] kwargs
  if camelCase then metaResult.map (fun kv => (toCamel kv.1, kv.2)) else metaResult

/-- Convenience wrapper for the common call
`generate_meta(requestor_data=generate_requestor(requestor))`. -/
def metaFor (ctx : Ctx) (requestor : Option Requestor) : JVal :=
  .obj (generate_meta ctx.now ctx.version ctx.toCamelCase
    (generate_requestor ctx.encode requestor) false [])

/-! ### Catalogue diff (`_calculate_added`, `_calculate_removed`) -/

/-- `NodeCatalogueInfo`: a `defaultdict(set)` from category name to a set of
opaque entity ids (ids embedded as naturals).  The default is realised by
`catGet`. -/
abbrev NodeCatalogueInfo := List (String × Finset ℕ)

/-- Indexing a catalogue: a missing category key yields the empty set
(`defaultdict(set)` semantics). -/
def catGet (c : NodeCatalogueInfo) (key : String) : Finset ℕ :=
  (lookupKey c key).getD ∅

/-- `_calculate_added` from the source: `current[key] - previous[key]`. -/
def calculate_added (previousCatalogue currentCatalogue : NodeCatalogueInfo)
    (key : String) : Finset ℕ :=
  catGet currentCatalogue key \ catGet previousCatalogue key

/-- `_calculate_removed` from the source: defined by swapping the arguments
of `_calculate_added`, not independently computed. -/
def calculate_removed (previousCatalogue currentCatalogue : NodeCatalogueInfo)
    (key : String) : Finset ℕ :=
  calculate_added currentCatalogue previousCatalogue key

/-- Render an id set as a deterministically ordered JSON list (the Python
`list(...)` of a set, taken in canonical order). -/
def catList (s : Finset ℕ) : JVal :=
  .arr ((s.sort (· ≤ ·)).map (fun n => JVal.num (n : ℚ)))

/-- The `Sale` root entity: only its pk is serialized (`sale_fields = ("id",)`,
and a Django serializer emits the pk through the injected id entry, not as a
plain attribute copy). -/
structure Sale where
  pk : Int

/-- `generate_sale_payload` from the source: `None` catalogues default to
`defaultdict(set)`, and the eight added/removed lists are attached next to
the sale id and meta envelope. -/
def generate_sale_payload (ctx : Ctx) (sale : Sale)
    (previousCatalogue currentCatalogue : Option NodeCatalogueInfo)
    (requestor : Option Requestor) : Rec :=
  let prev := previousCatalogue.getD []
  let curr := currentCatalogue.getD []
  serializeRecord (some ("id", .str (ctx.encode "Sale" (some sale.pk)))) [] []
    [("meta", metaFor ctx requestor),
      ("categories_added", catList (calculate_added prev curr "categories")),
      ("categories_removed", catList (calculate_removed prev curr "categories")),
      ("collections_added", catList (calculate_added prev curr "collections")),
      ("collections_removed", catList (calculate_removed prev curr "collections")),
      ("products_added", catList (calculate_added prev curr "products")),
      ("products_removed", catList (calculate_removed prev curr "products")),
      ("variants_added", catList (calculate_added prev curr "variants")),
      ("variants_removed", catList (calculate_removed prev curr "variants"))]

/-! ### Entity model for orders, lines, fulfillments, payments, checkouts -/

/-- Product type: its name and metadata are read through an order line's
variant. -/
structure ProductTypeM where
  name : String
  metadata : Rec

/-- Product: `charge_taxes`, `metadata` and the product type are read through
an order line's variant. -/
structure ProductM where
  charge_taxes : Bool
  metadata : Rec
  product_type : ProductTypeM

/-- Product variant as seen from an order line; `weightGrams` is
`variant.get_weight().g`. -/
structure VariantM where
  product : ProductM
  weightGrams : ℚ

/-- One allocation row of `line.allocations.values(...)`. -/
structure Allocation where
  warehouseId : Int
  quantityAllocated : Int

/-- A `prices.TaxedMoney` amount pair. -/
structure TaxedMoneyM where
  net : ℚ
  gross : ℚ

/-- An order line.  `attr` is the plain model-attribute view used for
`ORDER_LINE_FIELDS`; the typed fields are the attributes the source reads
explicitly in lambdas. -/
structure OrderLineM where
  pk : Int
  attr : AttrEntity
  currency : String
  variant : Option VariantM
  product_variant_id : JVal
  allocations : List Allocation
  product_name : String
  variant_name : String
  product_sku : JVal
  sale_id : JVal
  voucher_code : JVal
  unit_price : TaxedMoneyM
  total_price : TaxedMoneyM
  undiscounted_unit_price : TaxedMoneyM
  undiscounted_total_price : TaxedMoneyM

/-- `_charge_taxes` from the source: `None` when the line has no variant. -/
def charge_taxes (order_line : OrderLineM) : Option Bool :=
  match order_line.variant with
  | none => none
  | some variant => some variant.product.charge_taxes

/-- `get_product_metadata_for_order_line` from the source. -/
def get_product_metadata_for_order_line (line : OrderLineM) : Option Rec :=
  match line.variant with
  | none => none
  | some variant => some variant.product.metadata

/-- `get_product_type_metadata_for_order_line` from the source. -/
def get_product_type_metadata_for_order_line (line : OrderLineM) : Option Rec :=
  match line.variant with
  | none => none
  | some variant => some variant.product.product_type.metadata

/-- `prepare_order_lines_allocations_payload` from the source. -/
def prepare_order_lines_allocations_payload (ctx : Ctx) (line : OrderLineM) : JVal :=
  .arr (line.allocations.map (fun a =>
    .obj [("quantity_allocated", .num (a.quantityAllocated : ℚ)),
      ("warehouse_id", .str (ctx.encode "Warehouse" (some a.warehouseId)))]))

def ADDRESS_FIELDS : List String :=
  ["first_name", "last_name", "company_name", "street_address_1",
    "street_address_2", "city", "city_area", "postal_code", "country",
    "country_area", "phone"]

def ORDER_FIELDS : List String :=
  ["status", "origin", "shipping_method_name", "collection_point_name",
    "weight", "language_code", "private_metadata", "metadata"]

def ORDER_LINE_FIELDS : List String :=
  ["product_name", "variant_name", "translated_product_name",
    "translated_variant_name", "product_sku", "quantity", "currency",
    "unit_discount_amount", "unit_discount_type", "unit_discount_reason",
    "sale_id", "voucher_code"]

/-- `ORDER_LINES_EXTRA_DICT_DATA` from the source: the extra entries shared
by the with-taxes and without-taxes line payloads. -/
def ORDER_LINES_EXTRA_DICT_DATA (ctx : Ctx) (l : OrderLineM) : Rec :=
  [("id", .str (ctx.encode "OrderLine" (some l.pk))),
    ("product_variant_id", l.product_variant_id),
    ("allocations", prepare_order_lines_allocations_payload ctx l),
    ("charge_taxes", (charge_taxes l).elim .null (fun b => .bool b)),
    ("product_metadata",
      (get_product_metadata_for_order_line l).elim .null (fun m => .obj m)),
    ("product_type_metadata",
      (get_product_type_metadata_for_order_line l).elim .null (fun m => .obj m))]

/-- The pricing-engine collaborator (`order.calculations`) as used by the
with-taxes line payload: unit/total prices with and without discounts and
the tax rate, per line. -/
structure OrderLinePricing where
  unitWithDiscounts : OrderLineM → TaxedMoneyM
  unitUndiscounted : OrderLineM → TaxedMoneyM
  totalWithDiscounts : OrderLineM → TaxedMoneyM
  totalUndiscounted : OrderLineM → TaxedMoneyM
  taxRate : OrderLineM → ℚ

/-- The `ORDER_LINE_FIELDS` values of a line, with `unit_discount_amount`
quantized against the line currency first (`quantize_price_fields`). -/
def orderLineFieldVals (ctx : Ctx) (l : OrderLineM) : Rec :=
  serializeAttrFields
    (quantize_price_fields l.attr ["unit_discount_amount"] ctx.quantize l.currency)
    ORDER_LINE_FIELDS

/-- One record of `_generate_order_lines_payload_with_taxes`: the shared
fields and extras plus the net/gross price pairs and tax rate from the
pricing engine. -/
def order_line_record_with_taxes (ctx : Ctx) (p : OrderLinePricing)
    (l : OrderLineM) : Rec :=
  serializeRecord (some ("id", .str (ctx.encode "OrderLine" (some l.pk))))
    (orderLineFieldVals ctx l) []
    (ORDER_LINES_EXTRA_DICT_DATA ctx l ++
      [("unit_price_net_amount", .num (p.unitWithDiscounts l).net),
        ("unit_price_gross_amount", .num (p.unitWithDiscounts l).gross),
        ("total_price_net_amount", .num (p.totalWithDiscounts l).net),
        ("total_price_gross_amount", .num (p.totalWithDiscounts l).gross),
        ("undiscounted_unit_price_net_amount", .num (p.unitUndiscounted l).net),
        ("undiscounted_unit_price_gross_amount", .num (p.unitUndiscounted l).gross),
        ("undiscounted_total_price_net_amount", .num (p.totalUndiscounted l).net),
        ("undiscounted_total_price_gross_amount", .num (p.totalUndiscounted l).gross),
        ("tax_rate", .num (p.taxRate l))])

/-- `_generate_order_lines_payload_with_taxes` from the source. -/
def generate_order_lines_payload_with_taxes (ctx : Ctx) (p : OrderLinePricing)
    (lines : List OrderLineM) : List Rec :=
  lines.map (order_line_record_with_taxes ctx p)

/-- Modelled from the spec: `get_base_price(price, use_gross)` (imported from
`.utils`, not under `src/`) selects the gross amount when displayed prices
are tax-inclusive and the net amount otherwise. -/
def get_base_price (price : TaxedMoneyM) (useGrossAsBasePrice : Bool) : ℚ :=
  if useGrossAsBasePrice then price.gross else price.net

/-- `untaxed_price_amount` as defined inside the without-taxes composers:
the selected base amount quantized against the order currency. -/
def untaxed_price_amount (ctx : Ctx) (useGrossAsBasePrice : Bool)
    (orderCurrency : String) (price : TaxedMoneyM) : ℚ :=
  ctx.quantize (get_base_price price useGrossAsBasePrice) orderCurrency

/-- One record of `_generate_order_lines_payload_without_taxes`: the shared
fields and extras plus the four base-amount prices. -/
def order_line_record_without_taxes (ctx : Ctx) (orderCurrency : String)
    (useGrossAsBasePrice : Bool) (l : OrderLineM) : Rec :=
  serializeRecord (some ("id", .str (ctx.encode "OrderLine" (some l.pk))))
    (orderLineFieldVals ctx l) []
    (ORDER_LINES_EXTRA_DICT_DATA ctx l ++
      [("unit_price_base_amount",
          .num (untaxed_price_amount ctx useGrossAsBasePrice orderCurrency l.unit_price)),
        ("total_price_base_amount",
          .num (untaxed_price_amount ctx useGrossAsBasePrice orderCurrency l.total_price)),
        ("undiscounted_unit_price_base_amount",
          .num (untaxed_price_amount ctx useGrossAsBasePrice orderCurrency
            l.undiscounted_unit_price)),
        ("undiscounted_total_price_base_amount",
          .num (untaxed_price_amount ctx useGrossAsBasePrice orderCurrency
            l.undiscounted_total_price))])

/-- A stock row referenced by a fulfillment line. -/
structure StockM where
  warehouse_id : Int

/-- A fulfillment line with its prefetched order line and optional stock. -/
structure FulfillmentLineM where
  pk : Int
  order_line : OrderLineM
  quantity : ℤ
  stock : Option StockM

/-- A fulfillment; `attr` carries the plain fulfillment fields. -/
structure FulfillmentM where
  pk : Int
  attr : AttrEntity
  created_at : String
  lines : List FulfillmentLineM

/-- A payment attached to an order; `attr` carries the plain payment fields. -/
structure PaymentM where
  pk : Int
  attr : AttrEntity
  created_at : String
  modified_at : String

/-- An order discount; only its plain fields are serialized. -/
structure DiscountM where
  attr : AttrEntity

/-- A warehouse / collection point. -/
structure WarehouseM where
  pk : Int
  attr : AttrEntity
  address : Option AttrEntity

/-- An order.  `attr` is the plain model-attribute view used for
`ORDER_FIELDS`; the typed fields are what the composer reads explicitly. -/
structure OrderM where
  pk : Int
  attr : AttrEntity
  currency : String
  created_at : String
  customer_email : String
  original_id : Option Int
  channel : AttrEntity
  shipping_method : Option AttrEntity
  shipping_address : Option AttrEntity
  billing_address : Option AttrEntity
  collection_point : Option WarehouseM
  fulfillments : List FulfillmentM
  payments : List PaymentM
  discounts : List DiscountM
  lines : List OrderLineM
  shipping_price : TaxedMoneyM
  total : TaxedMoneyM
  undiscounted_total : TaxedMoneyM

/-- `_generate_order_lines_payload_without_taxes` from the source (its
base-amount quantization uses the order currency). -/
def generate_order_lines_payload_without_taxes (ctx : Ctx) (order : OrderM)
    (useGrossAsBasePrice : Bool) : List Rec :=
  order.lines.map (order_line_record_without_taxes ctx order.currency useGrossAsBasePrice)

def CHANNEL_FIELDS : List String := ["slug", "currency_code"]

def SHIPPING_METHOD_FIELDS : List String := ["name", "type", "currency", "price_amount"]

def DISCOUNT_FIELDS : List String :=
  ["type", "value_type", "value", "amount_value", "name", "translated_name", "reason"]

def PAYMENT_FIELDS : List String :=
  ["gateway", "payment_method_type", "cc_brand", "is_active", "partial",
    "charge_status", "psp_reference", "total", "captured_amount", "currency",
    "billing_email", "billing_first_name", "billing_last_name",
    "billing_company_name", "billing_address_1", "billing_address_2",
    "billing_city", "billing_city_area", "billing_postal_code",
    "billing_country_code", "billing_country_area"]

/-- `_generate_collection_point_payload` from the source; the single record
of the serialized one-element list. -/
def generate_collection_point_payload (ctx : Ctx) (w : WarehouseM) : Rec :=
  serializeRecord (some ("id", .str (ctx.encode "Warehouse" (some w.pk))))
    (serializeAttrFields w.attr
      ["name", "email", "click_and_collect_option", "is_private"])
    [("address", serializeAdditionalOpt w.address ADDRESS_FIELDS)]
    []

/-- One record of `generate_fulfillment_lines_payload`: formulas copied from
the source lambdas; in particular the `total_price_*_amount` entries multiply
the quantized undiscounted unit price by the fulfillment line quantity. -/
def fulfillment_line_record (ctx : Ctx) (fl : FulfillmentLineM) : Rec :=
  serializeRecord (some ("id", .str (ctx.encode "FulfillmentLine" (some fl.pk))))
    [("quantity", .num (fl.quantity : ℚ))] []
    [("product_name", .str fl.order_line.product_name),
      ("variant_name", .str fl.order_line.variant_name),
      ("product_sku", fl.order_line.product_sku),
      ("product_variant_id", fl.order_line.product_variant_id),
      ("weight", (fl.order_line.variant).elim .null (fun v => .num v.weightGrams)),
      ("weight_unit", .str "gram"),
      ("product_type",
        (fl.order_line.variant).elim .null (fun v => .str v.product.product_type.name)),
      ("unit_price_net",
        .num (ctx.quantize fl.order_line.unit_price.net fl.order_line.currency)),
      ("unit_price_gross",
        .num (ctx.quantize fl.order_line.unit_price.gross fl.order_line.currency)),
      ("undiscounted_unit_price_net",
        .num (ctx.quantize fl.order_line.undiscounted_unit_price.net
          fl.order_line.currency)),
      ("undiscounted_unit_price_gross",
        .num (ctx.quantize fl.order_line.undiscounted_unit_price.gross
          fl.order_line.currency)),
      ("total_price_net_amount",
        .num (ctx.quantize fl.order_line.undiscounted_unit_price.net
          fl.order_line.currency * (fl.quantity : ℚ))),
      ("total_price_gross_amount",
        .num (ctx.quantize fl.order_line.undiscounted_unit_price.gross
          fl.order_line.currency * (fl.quantity : ℚ))),
      ("currency", .str fl.order_line.currency),
      ("warehouse_id",
        (fl.stock).elim .null
          (fun s => .str (ctx.encode "Warehouse" (some s.warehouse_id)))),
      ("sale_id", fl.order_line.sale_id),
      ("voucher_code", fl.order_line.voucher_code)]

/-- `generate_fulfillment_lines_payload` from the source. -/
def generate_fulfillment_lines_payload (ctx : Ctx) (f : FulfillmentM) : List Rec :=
  f.lines.map (fulfillment_line_record ctx)

/-- A fulfillment record embedded in the order payload: the plain refund
fields quantized against the order currency, plus its lines and creation
time. -/
def fulfillment_record_in_order (ctx : Ctx) (currency : String)
    (f : FulfillmentM) : Rec :=
  serializeRecord (some ("id", .str (ctx.encode "Fulfillment" (some f.pk))))
    (serializeAttrFields
      (quantize_price_fields f.attr ["shipping_refund_amount", "total_refund_amount"]
        ctx.quantize currency)
      ["status", "tracking_number", "shipping_refund_amount", "total_refund_amount"])
    []
    [("lines", .arr ((generate_fulfillment_lines_payload ctx f).map .obj)),
      ("created", .str f.created_at)]

/-- `_generate_order_payment_payload` from the source (the payment price
fields have been quantized against the order currency by the caller). -/
def generate_order_payment_payload (ctx : Ctx) (currency : String)
    (payments : List PaymentM) : List Rec :=
  payments.map (fun p =>
    serializeRecord (some ("id", .str (ctx.encode "Payment" (some p.pk))))
      (serializeAttrFields
        (quantize_price_fields p.attr ["captured_amount", "total"]
          ctx.quantize currency)
        PAYMENT_FIELDS)
      []
      [("created", .str p.created_at), ("modified", .str p.modified_at)])

/-- The engine outputs consumed by `_generate_order_prices_data_with_taxes`:
order shipping price, shipping tax rate, total and undiscounted total. -/
structure OrderPricing where
  shipping : TaxedMoneyM
  shippingTaxRate : ℚ
  total : TaxedMoneyM
  undiscountedTotal : TaxedMoneyM

/-- `_generate_order_prices_data_with_taxes` from the source. -/
def generate_order_prices_data_with_taxes (opr : OrderPricing) : Rec :=
  [("shipping_price_net_amount", .num opr.shipping.net),
    ("shipping_price_gross_amount", .num opr.shipping.gross),
    ("shipping_tax_rate", .num opr.shippingTaxRate),
    ("total_net_amount", .num opr.total.net),
    ("total_gross_amount", .num opr.total.gross),
    ("undiscounted_total_net_amount", .num opr.undiscountedTotal.net),
    ("undiscounted_total_gross_amount", .num opr.undiscountedTotal.gross)]

/-- `_generate_order_prices_data_without_taxes` from the source. -/
def generate_order_prices_data_without_taxes (ctx : Ctx) (order : OrderM)
    (useGrossAsBasePrice : Bool) : Rec :=
  [("shipping_price_base_amount",
      .num (untaxed_price_amount ctx useGrossAsBasePrice order.currency
        order.shipping_price)),
    ("total_base_amount",
      .num (untaxed_price_amount ctx useGrossAsBasePrice order.currency order.total)),
    ("undiscounted_total_base_amount",
      .num (untaxed_price_amount ctx useGrossAsBasePrice order.currency
        order.undiscounted_total))]

/-- `_generate_order_payload` from the source: the regime-independent order
composer, taking the prices data and the serialized lines of whichever
regime was requested. -/
def generate_order_payload_core (ctx : Ctx) (order : OrderM)
    (requestor : Option Requestor) (withMeta : Bool) (orderPricesData : Rec)
    (orderLinesPayload : List Rec) (includedTaxesInPrices : Bool) : Rec :=
  let discounts := order.discounts.map (fun d =>
    quantize_price_fields d.attr ["amount_value"] ctx.quantize order.currency)
  let extraDictData : Rec :=
    [("id", .str (ctx.encode "Order" (some order.pk))),
      ("token", .str (toString order.pk)),
      ("user_email", .str order.customer_email),
      ("created", .str order.created_at),
      ("original", .str (ctx.encode "Order" order.original_id)),
      ("lines", .arr (orderLinesPayload.map .obj)),
      ("included_taxes_in_prices", .bool includedTaxesInPrices)]
    ++ orderPricesData ++
    [("fulfillments",
        .arr ((order.fulfillments.map (fulfillment_record_in_order ctx order.currency)).map
          .obj)),
      ("collection_point",
        (order.collection_point).elim .null
          (fun w => .obj (generate_collection_point_payload ctx w))),
      ("payments",
        .arr ((generate_order_payment_payload ctx order.currency order.payments).map
          .obj))]
    ++ (if withMeta then [("meta", metaFor ctx requestor)] else [])
  serializeRecord (some ("id", .str (ctx.encode "Order" (some order.pk))))
    (serializeAttrFields order.attr ORDER_FIELDS)
    [("channel", serializeAdditionalOpt (some order.channel) CHANNEL_FIELDS),
      ("shipping_method",
        serializeAdditionalOpt order.shipping_method SHIPPING_METHOD_FIELDS),
      ("shipping_address", serializeAdditionalOpt order.shipping_address ADDRESS_FIELDS),
      ("billing_address", serializeAdditionalOpt order.billing_address ADDRESS_FIELDS),
      ("discounts", serializeAdditionalList discounts DISCOUNT_FIELDS)]
    extraDictData

/-- `generate_order_payload` from the source: the with-taxes pipeline. -/
def generate_order_payload (ctx : Ctx) (linePricing : OrderLinePricing)
    (orderPricing : OrderPricing) (order : OrderM) (requestor : Option Requestor)
    (withMeta : Bool) : Rec :=
  generate_order_payload_core ctx order requestor withMeta
    (generate_order_prices_data_with_taxes orderPricing)
    (generate_order_lines_payload_with_taxes ctx linePricing order.lines)
    ctx.includeTaxesInPrices

/-- `generate_order_payload_without_taxes` from the source: the base-price
pipeline, where the prices-include-tax flag also selects the base amount. -/
def generate_order_payload_without_taxes (ctx : Ctx) (order : OrderM)
    (requestor : Option Requestor) (withMeta : Bool) : Rec :=
  generate_order_payload_core ctx order requestor withMeta
    (generate_order_prices_data_without_taxes ctx order ctx.includeTaxesInPrices)
    (generate_order_lines_payload_without_taxes ctx order ctx.includeTaxesInPrices)
    ctx.includeTaxesInPrices

/-- A checkout; `attr` carries the plain checkout fields. -/
structure CheckoutM where
  token : String
  attr : AttrEntity
  currency : String
  created_at : String
  channel : AttrEntity
  user : Option AttrEntity
  billing_address : Option AttrEntity
  shipping_address : Option AttrEntity
  shipping_method : Option AttrEntity
  collection_point : Option WarehouseM

def CHECKOUT_FIELDS : List String :=
  ["last_change", "status", "email", "quantity", "currency",
    "discount_amount", "discount_name", "language_code", "private_metadata",
    "metadata"]

def USER_FIELDS : List String := ["email", "first_name", "last_name"]

/-- `generate_checkout_payload` from the source; the single record of the
serialized one-element list.  `linesDictData` stands for the external
`serialize_checkout_lines` result and `dbWarehouse` for the
`Warehouse.objects.for_country(...).first()` lookup, consulted only when the
checkout has a shipping address. -/
def generate_checkout_payload (ctx : Ctx) (checkout : CheckoutM)
    (requestor : Option Requestor) (linesDictData : List JVal)
    (dbWarehouse : Option WarehouseM) : Rec :=
  let warehouse : Option WarehouseM :=
    if checkout.shipping_address.isSome then dbWarehouse else none
  serializeRecord (some ("token", .str checkout.token))
    (serializeAttrFields
      (quantize_price_fields checkout.attr ["discount_amount"] ctx.quantize
        checkout.currency)
      CHECKOUT_FIELDS)
    [("channel", serializeAdditionalOpt (some checkout.channel) CHANNEL_FIELDS),
      ("user", serializeAdditionalOpt checkout.user USER_FIELDS),
      ("billing_address", serializeAdditionalOpt checkout.billing_address ADDRESS_FIELDS),
      ("shipping_address",
        serializeAdditionalOpt checkout.shipping_address ADDRESS_FIELDS),
      ("shipping_method",
        serializeAdditionalOpt checkout.shipping_method SHIPPING_METHOD_FIELDS),
      ("warehouse_address",
        serializeAdditionalOpt (warehouse.bind (fun w => w.address)) ADDRESS_FIELDS)]
    [("lines", .arr linesDictData),
      ("collection_point",
        (checkout.collection_point).elim .null
          (fun w => .obj (generate_collection_point_payload ctx w))),
      ("meta", metaFor ctx requestor),
      ("created", .str checkout.created_at)]

/-! ### Payment payload (`generate_payment_payload`) -/

/-- The parse result of `from_payment_app_id` (from
`plugins.webhook.utils`, not under `src/`): only its `name` is consumed. -/
structure PaymentAppData where
  name : String

/-- The `PaymentData` dataclass handed to `generate_payment_payload`:
`gateway`, `amount` and `currency` are read explicitly; the remaining
dataclass fields pass through `asdict` unchanged and are modelled as
`others`. -/
structure PaymentDataM where
  gateway : String
  amount : ℚ
  currency : String
  others : Rec

/-- `asdict(payment_data)` as a record. -/
def paymentAsDict (pd : PaymentDataM) : Rec :=
  [("gateway", .str pd.gateway), ("amount", .num pd.amount),
    ("currency", .str pd.currency)] ++ pd.others

/-- `generate_payment_payload` from the source: the amount is quantized in
place; the `payment_method` and `meta` keys are added only when the gateway
id parses as a payment-app id. -/
def generate_payment_payload (ctx : Ctx)
    (from_payment_app_id : String → Option PaymentAppData) (pd : PaymentDataM)
    (requestor : Option Requestor) : Rec :=
  let data := setKey (paymentAsDict pd) "amount"
    (.num (ctx.quantize pd.amount pd.currency))
  match from_payment_app_id pd.gateway with
  | none => data
  | some paymentAppData =>
      setKey (setKey data "payment_method" (.str paymentAppData.name)) "meta"
        (metaFor ctx requestor)

/-! ### Sample payload generation (`generate_sample_payload`) -/

/-- Modelled from the spec: the event names of `WebhookEventAsyncType`
(from `.event_types`, not under `src/`) that `generate_sample_payload`
branches on; `unknown` stands for every other event name. -/
inductive WebhookEvent where
  | orderCreated | orderFullyPaid | orderFulfilled | orderCancelled | orderUpdated
  | checkoutCreated | checkoutUpdated
  | pageCreated | pageDeleted | pageUpdated
  | customerCreated | customerUpdated
  | productCreated | fulfillmentCreated
  | unknown (name : String)

/-- The runtime errors the sample-generation control flow can raise: the
`payload` local read before assignment, an attribute read on `None`, and
indexing an empty list. -/
inductive PyError where
  | unboundLocalError
  | attributeError
  | indexError

/-- The persisted entities available to `_get_sample_object`, one optional
sample per filter used by the source (selection is random in the source;
only presence or absence matters here). -/
structure SampleDB (V : Type) where
  unfulfilledOrder : Option V
  fullyChargedOrder : Option V
  fulfilledOrder : Option V
  canceledOrder : Option V
  product : Option V
  checkout : Option V
  page : Option V
  fulfillment : Option V

/-- The per-entity composers and anonymizers called by
`generate_sample_payload`, abstracted over the entity type: the claims about
sample generation hold for every output of these collaborators.  Each
composer returns the single record of its serialized one-element list. -/
structure SampleGenerators (V : Type) where
  fakeUser : V
  customer : V → Rec
  product : V → Rec
  checkout : V → Rec
  page : V → Rec
  fulfillment : V → Rec
  order : V → Rec
  anonymizeCheckout : V → V
  anonymizeOrder : V → V
  anonymizeFulfillmentOrder : V → V

/-- `str(uuid.UUID(int=1))`: the fixed sentinel token. -/
def uuidInt1 : String := "00000000-0000-0000-0000-000000000001"

/-- `_remove_token_from_checkout` from the source: overwrite the token of
record 0 with the fixed sentinel (indexing an empty list would raise). -/
def remove_token_from_checkout (checkoutData : List Rec) :
    Except PyError (List Rec) :=
  match checkoutData with
  | [] => .error .indexError
  | r :: rs => .ok (setKey r "token" (.str uuidInt1) :: rs)

/-- `_generate_sample_order_payload` from the source: pick the sample order
matching the event filter, anonymize and compose it; unknown or unmatched
events yield `None`. -/
def generate_sample_order_payload (g : SampleGenerators V) (db : SampleDB V) :
    WebhookEvent → Option Rec
  | .orderCreated => db.unfulfilledOrder.map (fun o => g.order (g.anonymizeOrder o))
  | .orderFullyPaid => db.fullyChargedOrder.map (fun o => g.order (g.anonymizeOrder o))
  | .orderFulfilled => db.fulfilledOrder.map (fun o => g.order (g.anonymizeOrder o))
  | .orderCancelled => db.canceledOrder.map (fun o => g.order (g.anonymizeOrder o))
  | .orderUpdated => db.canceledOrder.map (fun o => g.order (g.anonymizeOrder o))
  | _ => none

/-- `generate_sample_payload` from the source, branch for branch.  In the
checkout and page branches the `payload` local is assigned only when a
sample entity exists, so a missing sample reaches the final
`json.loads(payload) if payload else None` with `payload` unbound; in the
fulfillment branch `fulfillment.order` is read before the `None` check. -/
def generate_sample_payload (g : SampleGenerators V) (db : SampleDB V) :
    WebhookEvent → Except PyError (Option (List Rec))
  | .customerCreated => .ok (some [g.customer g.fakeUser])
  | .customerUpdated => .ok (some [g.customer g.fakeUser])
  | .productCreated =>
      match db.product with
      | some p => .ok (some [g.product p])
      | none => .ok none
  | .checkoutCreated =>
      match db.checkout with
      | some c =>
          match remove_token_from_checkout [g.checkout (g.anonymizeCheckout c)] with
          | .ok p => .ok (some p)
          | .error e => .error e
      | none => .error .unboundLocalError
  | .checkoutUpdated =>
      match db.checkout with
      | some c =>
          match remove_token_from_checkout [g.checkout (g.anonymizeCheckout c)] with
          | .ok p => .ok (some p)
          | .error e => .error e
      | none => .error .unboundLocalError
  | .pageCreated =>
      match db.page with
      | some p => .ok (some [g.page p])
      | none => .error .unboundLocalError
  | .pageDeleted =>
      match db.page with
      | some p => .ok (some [g.page p])
      | none => .error .unboundLocalError
  | .pageUpdated =>
      match db.page with
      | some p => .ok (some [g.page p])
      | none => .error .unboundLocalError
  | .fulfillmentCreated =>
      match db.fulfillment with
      | some f => .ok (some [g.fulfillment (g.anonymizeFulfillmentOrder f)])
      | none => .error .attributeError
  | ev => .ok ((generate_sample_order_payload g db ev).map (fun r => [r]))

/-! ### Field-name partitions and concrete fixtures -/

/-- A price field name per the regime split: a with-taxes `{net,gross}` pair
member or a without-taxes base amount. -/
def isPriceAmountKey (k : String) : Bool :=
  List.isSuffixOf "_net_amount".data k.data
    || List.isSuffixOf "_gross_amount".data k.data
    || List.isSuffixOf "_base_amount".data k.data

/-- The non-price field names of a record. -/
def nonPriceKeys (r : Rec) : Finset String :=
  ((keysOf r).filter (fun k => !(isPriceAmountKey k))).toFinset

/-- The price field names of a record. -/
def priceKeys (r : Rec) : Finset String :=
  ((keysOf r).filter (fun k => isPriceAmountKey k)).toFinset

/-- The regime-independent key list of a serialized order line, in order. -/
def lineKeysShared : List String :=
  "id" :: ORDER_LINE_FIELDS ++
    ["product_variant_id", "allocations", "charge_taxes", "product_metadata",
      "product_type_metadata"]

/-- The regime-independent leading keys of a serialized order, in order. -/
def orderKeysSharedPrefix : List String :=
  "id" :: ORDER_FIELDS ++
    ["channel", "shipping_method", "shipping_address", "billing_address",
      "discounts", "token", "user_email", "created", "original", "lines",
      "included_taxes_in_prices"]

/-- The regime-independent trailing keys of a serialized order (meta present). -/
def orderKeysSharedSuffix : List String :=
  ["fulfillments", "collection_point", "payments", "meta"]

/-- A concrete collaborator context used for witnesses. -/
def ctx0 : Ctx :=
  ⟨fun ty _ => ty ++ ":gid", fun q _ => q, "2020-01-01T00:00:00+00:00", "3.x",
    id, true⟩

/-- A concrete attribute view returning `null` for every field. -/
def attr0 : AttrEntity := fun _ => JVal.null

/-- A concrete order line with no variant. -/
def line0 : OrderLineM :=
  ⟨1, attr0, "USD", none, .null, [], "P", "V", .null, .null, .null,
    ⟨10, 12⟩, ⟨20, 24⟩, ⟨10, 12⟩, ⟨20, 24⟩⟩

/-- A concrete line-pricing collaborator used for witnesses. -/
def pricing0 : OrderLinePricing :=
  ⟨fun l => l.unit_price, fun l => l.undiscounted_unit_price,
    fun l => l.total_price, fun l => l.undiscounted_total_price, fun _ => 0⟩

/-- A concrete order-pricing collaborator used for witnesses. -/
def orderPricing0 : OrderPricing := ⟨⟨0, 0⟩, 0, ⟨30, 36⟩, ⟨30, 36⟩⟩

/-- A concrete order with every optional relation absent. -/
def order0 : OrderM :=
  ⟨1, attr0, "USD", "2020-01-01", "customer@example.com", none, attr0, none,
    none, none, none, [], [], [], [line0], ⟨0, 0⟩, ⟨30, 36⟩, ⟨30, 36⟩⟩

/-- A concrete checkout with every optional relation absent. -/
def checkout0 : CheckoutM :=
  ⟨"tok", attr0, "USD", "2020-01-01", attr0, none, none, none, none, none⟩

/-- A concrete payment-data value used for witnesses. -/
def pd0 : PaymentDataM := ⟨"gw", 5, "USD", [("token", .str "t")]⟩

/-- Trivial sample-payload collaborators over the unit entity type. -/
def gUnit : SampleGenerators Unit :=
  ⟨(), fun _ => [], fun _ => [], fun _ => [("token", .str "orig")], fun _ => [],
    fun _ => [], fun _ => [], fun u => u, fun u => u, fun u => u⟩

/-- A sample database with no persisted entities at all. -/
def dbNone : SampleDB Unit := ⟨none, none, none, none, none, none, none, none⟩

/-- A sample database holding one checkout. -/
def dbCheckout : SampleDB Unit :=
  ⟨none, none, none, none, none, some (), none, none⟩

/-! ### Association-list lemmas -/

theorem containsKey_eq_isSome (l : List (String × α)) (key : String) :
    containsKey l key = (lookupKey l key).isSome := by
  induction l with
  | nil => rfl
  | cons kv rest ih =>
    obtain ⟨k, v⟩ := kv
    by_cases hk : (k == key) = true
    · simp [containsKey, lookupKey, hk]
    · simp only [Bool.not_eq_true] at hk
      simp [containsKey, lookupKey, hk, ih]

theorem mem_keysOf_iff (l : List (String × α)) (key : String) :
    key ∈ keysOf l ↔ (lookupKey l key).isSome := by
  induction l with
  | nil => simp [keysOf, lookupKey]
  | cons kv rest ih =>
    obtain ⟨k, v⟩ := kv
    by_cases hk : k = key
    · subst hk
      simp [keysOf, lookupKey]
    · have hb : (k == key) = false := by simp [hk]
      simp [keysOf, lookupKey, hb, hk, ← ih]
      tauto

theorem lookupKey_append (l₁ l₂ : List (String × α)) (key : String) :
    lookupKey (l₁ ++ l₂) key = (lookupKey l₁ key).elim (lookupKey l₂ key) some := by
  induction l₁ with
  | nil => simp [lookupKey]
  | cons kv rest ih =>
    obtain ⟨k, v⟩ := kv
    by_cases hk : (k == key) = true
    · simp [lookupKey, hk]
    · simp only [Bool.not_eq_true] at hk
      simp [lookupKey, hk, ih]

theorem lookupKey_updMap (l ext : List (String × α)) (key : String) :
    lookupKey (l.map (fun kv => (kv.1, (lookupKey ext kv.1).getD kv.2))) key
      = (lookupKey l key).map (fun v => (lookupKey ext key).getD v) := by
  induction l with
  | nil => simp [lookupKey]
  | cons kv rest ih =>
    obtain ⟨k, v⟩ := kv
    by_cases hk : (k == key) = true
    · have hkeq : k = key := by exact eq_of_beq hk
      subst hkeq
      simp [lookupKey, hk]
    · simp only [Bool.not_eq_true] at hk
      simp [lookupKey, hk, ih]

theorem lookupKey_filter_congr (l : List (String × α)) (p q : String × α → Bool)
    (key : String) (h : ∀ v, p (key, v) = q (key, v)) :
    lookupKey (l.filter p) key = lookupKey (l.filter q) key := by
  induction l with
  | nil => rfl
  | cons kv rest ih =>
    obtain ⟨k, v⟩ := kv
    by_cases hk : k = key
    · subst hk
      cases hp : p (k, v) <;> rw [List.filter_cons, List.filter_cons, hp, ← h v, hp]
      · exact ih
      · simp [lookupKey]
    · have hb : (k == key) = false := by simp [hk]
      cases hp : p (k, v) <;> cases hq : q (k, v) <;>
        simp [List.filter_cons, hp, hq, lookupKey, hb, ih]

/-- The master merge law: a key looked up after `dictUpdate` takes the
extension value when the extension has the key, the base value otherwise. -/
theorem lookupKey_dictUpdate (base ext : List (String × α)) (key : String) :
    lookupKey (dictUpdate base ext) key
      = (lookupKey ext key).elim (lookupKey base key) some := by
  rw [dictUpdate, lookupKey_append, lookupKey_updMap]
  cases hc : containsKey base key
  · have hb : lookupKey base key = none := by
      have := containsKey_eq_isSome base key
      rw [hc] at this
      exact Option.not_isSome_iff_eq_none.mp (by simp [← this])
    rw [hb]
    have hfilter : lookupKey (ext.filter (fun kv => !(containsKey base kv.1))) key
        = lookupKey (ext.filter (fun _ => true)) key := by
      apply lookupKey_filter_congr
      intro v
      simp [hc]
    rw [hfilter, List.filter_true]
    cases lookupKey ext key <;> simp
  · have hb : (lookupKey base key).isSome := by
      have := containsKey_eq_isSome base key
      rw [hc] at this
      exact (by simp [← this])
    obtain ⟨v₀, hv₀⟩ := Option.isSome_iff_exists.mp hb
    rw [hv₀]
    cases hext : lookupKey ext key <;> simp

theorem lookupKey_setKey (l : List (String × α)) (k : String) (v : α) :
    lookupKey (setKey l k v) k = some v := by
  rw [setKey, lookupKey_dictUpdate]
  simp [lookupKey]

theorem lookupKey_setKey_ne (l : List (String × α)) (k k' : String) (v : α)
    (h : k ≠ k') : lookupKey (setKey l k v) k' = lookupKey l k' := by
  rw [setKey, lookupKey_dictUpdate]
  have hb : (k == k') = false := by simp [h]
  simp [lookupKey, hb]

/-! ### Catalogue-diff facts (C1, C7) -/

theorem catList_diff_empty (key : String) :
    catList (calculate_added [] [] key) = .arr [] := by
  simp [catList, calculate_added, catGet, lookupKey, Finset.sort_empty]

/-- C1: for every pair of catalogue snapshots and every category key, the
removed set equals the added set with the arguments swapped, and diffing a
snapshot against itself yields the empty set; on the concrete snapshots with
previous products 0 and 1 and current products 1 and 2, the added products
are exactly 2 and the removed products exactly 0, and the sale payload
carries those lists under products_added and products_removed. -/
theorem calculate_added_removed_symmetry :
    (∀ (prev curr : NodeCatalogueInfo) (key : String),
      calculate_removed prev curr key = calculate_added curr prev key) ∧
    (∀ (c : NodeCatalogueInfo) (key : String), calculate_added c c key = ∅) ∧
    calculate_added [("products", ({0, 1} : Finset ℕ))]
        [("products", ({1, 2} : Finset ℕ))] "products" = {2} ∧
    calculate_removed [("products", ({0, 1} : Finset ℕ))]
        [("products", ({1, 2} : Finset ℕ))] "products" = {0} ∧
    lookupKey (generate_sale_payload ctx0 ⟨1⟩
        (some [("products", ({0, 1} : Finset ℕ))])
        (some [("products", ({1, 2} : Finset ℕ))]) none) "products_added"
      = some (.arr [.num 2]) ∧
    lookupKey (generate_sale_payload ctx0 ⟨1⟩
        (some [("products", ({0, 1} : Finset ℕ))])
        (some [("products", ({1, 2} : Finset ℕ))]) none) "products_removed"
      = some (.arr [.num 0]) := by
  have hadd : calculate_added [("products", ({0, 1} : Finset ℕ))]
      [("products", ({1, 2} : Finset ℕ))] "products" = {2} := by decide
  have hrem : calculate_removed [("products", ({0, 1} : Finset ℕ))]
      [("products", ({1, 2} : Finset ℕ))] "products" = {0} := by decide
  refine ⟨fun _ _ _ => rfl, fun c key => ?_, hadd, hrem, ?_, ?_⟩
  · exact sdiff_self
  · exact congrArg some (by
      simp only [catList, Option.getD_some]
      rw [hadd, Finset.sort_singleton]
      rfl)
  · exact congrArg some (by
      simp only [catList, Option.getD_some]
      rw [hrem, Finset.sort_singleton]
      rfl)

/-- C7: calling the sale payload composer with both catalogues absent yields
the empty list for every one of the eight added and removed entries, and
indexing a supplied catalogue at a missing category key yields the empty set
instead of raising. -/
theorem generate_sale_payload_empty_catalogues :
    (∀ (ctx : Ctx) (sale : Sale) (requestor : Option Requestor),
      lookupKey (generate_sale_payload ctx sale none none requestor)
          "categories_added" = some (.arr []) ∧
      lookupKey (generate_sale_payload ctx sale none none requestor)
          "categories_removed" = some (.arr []) ∧
      lookupKey (generate_sale_payload ctx sale none none requestor)
          "collections_added" = some (.arr []) ∧
      lookupKey (generate_sale_payload ctx sale none none requestor)
          "collections_removed" = some (.arr []) ∧
      lookupKey (generate_sale_payload ctx sale none none requestor)
          "products_added" = some (.arr []) ∧
      lookupKey (generate_sale_payload ctx sale none none requestor)
          "products_removed" = some (.arr []) ∧
      lookupKey (generate_sale_payload ctx sale none none requestor)
          "variants_added" = some (.arr []) ∧
      lookupKey (generate_sale_payload ctx sale none none requestor)
          "variants_removed" = some (.arr [])) ∧
    (∀ (c : NodeCatalogueInfo) (key : String),
      key ∉ keysOf c → catGet c key = ∅) := by
  constructor
  · intro ctx sale requestor
    exact ⟨congrArg some (catList_diff_empty "categories"),
      congrArg some (catList_diff_empty "categories"),
      congrArg some (catList_diff_empty "collections"),
      congrArg some (catList_diff_empty "collections"),
      congrArg some (catList_diff_empty "products"),
      congrArg some (catList_diff_empty "products"),
      congrArg some (catList_diff_empty "variants"),
      congrArg some (catList_diff_empty "variants")⟩
  · intro c key h
    unfold catGet
    cases hl : lookupKey c key with
    | none => rfl
    | some v =>
        exact absurd ((mem_keysOf_iff c key).mpr (by rw [hl]; rfl)) h

/-- Witness for C7 at concrete inputs. -/
theorem generate_sale_payload_empty_catalogues_witness :
    lookupKey (generate_sale_payload ctx0 ⟨1⟩ none none none) "products_added"
        = some (.arr []) ∧
    catGet [("categories", ({3} : Finset ℕ))] "products" = ∅ :=
  ⟨(generate_sale_payload_empty_catalogues.1 ctx0 ⟨1⟩ none).2.2.2.2.1,
    generate_sale_payload_empty_catalogues.2 [("categories", ({3} : Finset ℕ))]
      "products" (by decide)⟩

/-! ### Requestor and meta envelope facts (C3, C4) -/

/-- C4: the requestor resolver returns exactly one of three results: null id
and type for an absent principal, the encoded user id with type user for a
user or anonymous-session-user principal, and the principal name with type
app for any other principal. -/
theorem generate_requestor_three_cases :
    ∀ (encode : String → Option Int → String) (r : Option Requestor),
      (r = none →
        generate_requestor encode r = [("id", .null), ("type", .null)]) ∧
      (∀ i, r = some (.user i) →
        generate_requestor encode r
          = [("id", .str (encode "User" i)), ("type", .str "user")]) ∧
      (∀ n, r = some (.app n) →
        generate_requestor encode r = [("id", .str n), ("type", .str "app")]) := by
  intro encode r
  exact ⟨fun h => by subst h; rfl, fun i h => by subst h; rfl,
    fun n h => by subst h; rfl⟩

/-- Witness for C4 at the three concrete principal shapes. -/
theorem generate_requestor_three_cases_witness :
    generate_requestor ctx0.encode none = [("id", .null), ("type", .null)] ∧
    generate_requestor ctx0.encode (some (.user (some 7)))
      = [("id", .str (ctx0.encode "User" (some 7))), ("type", .str "user")] ∧
    generate_requestor ctx0.encode (some (.app "acme"))
      = [("id", .str "acme"), ("type", .str "app")] :=
  ⟨(generate_requestor_three_cases ctx0.encode none).1 rfl,
    (generate_requestor_three_cases ctx0.encode (some (.user (some 7)))).2.1
      (some 7) rfl,
    (generate_requestor_three_cases ctx0.encode (some (.app "acme"))).2.2
      "acme" rfl⟩

/-- C3 counterexample: a caller-supplied extension key named `version` does
override the core entry, because `meta_result.update(kwargs)` runs after the
core dict is built; the returned version entry is the extension value, not
the build version tag. -/
theorem generate_meta_extension_overrides_core :
    lookupKey (generate_meta "t0" "v0" id [] false [("version", .str "w0")])
        "version" = some (.str "w0") ∧
    lookupKey (generate_meta "t0" "v0" id [] false [("version", .str "w0")])
        "version" ≠ some (.str "v0") := by
  refine ⟨rfl, fun h => ?_⟩
  have h2 : (some (JVal.str "w0") : Option JVal) = some (.str "v0") :=
    (rfl : lookupKey (generate_meta "t0" "v0" id [] false
      [("version", .str "w0")]) "version" = some (.str "w0")).symm.trans h
  injection h2 with h3
  injection h3 with h4
  exact absurd h4 (by decide)

/-- C3 amended: the envelope's three core entries carry the current
timestamp, version tag and requestor data whenever the extensions do not
name them; on a key collision the extension value overrides the core value;
and the camel-case transform is applied uniformly to every key after the
merge. -/
theorem generate_meta_envelope :
    ∀ (now version : String) (toCamel : String → String) (requestorData : Rec)
      (kwargs : Rec),
      (lookupKey kwargs "issued_at" = none →
        lookupKey (generate_meta now version toCamel requestorData false kwargs)
          "issued_at" = some (.str now)) ∧
      (lookupKey kwargs "version" = none →
        lookupKey (generate_meta now version toCamel requestorData false kwargs)
          "version" = some (.str version)) ∧
      (lookupKey kwargs "issuing_principal" = none →
        lookupKey (generate_meta now version toCamel requestorData false kwargs)
          "issuing_principal" = some (.obj requestorData)) ∧
      (∀ k v, lookupKey kwargs k = some v →
        lookupKey (generate_meta now version toCamel requestorData false kwargs)
          k = some v) ∧
      generate_meta now version toCamel requestorData true kwargs
        = (generate_meta now version toCamel requestorData false kwargs).map
            (fun kv => (toCamel kv.1, kv.2)) := by
  intro now version toCamel requestorData kwargs
  have hbase : ∀ key,
      lookupKey (generate_meta now version toCamel requestorData false kwargs) key
        = (lookupKey kwargs key).elim
            (lookupKey [("issued_at", JVal.str now), ("version", .str version),
              ("issuing_principal", .obj requestorData)] key) some :=
    fun key => lookupKey_dictUpdate _ kwargs key
  refine ⟨fun h => ?_, fun h => ?_, fun h => ?_, fun k v h => ?_, rfl⟩
  · rw [hbase "issued_at", h]; rfl
  · rw [hbase "version", h]; rfl
  · rw [hbase "issuing_principal", h]; rfl
  · rw [hbase k, h]; rfl

/-- Witness for C3 (amended) at a concrete extension mapping. -/
theorem generate_meta_envelope_witness :
    lookupKey (generate_meta "t0" "v0" id [] false [("extra_key", .null)])
        "version" = some (.str "v0") ∧
    lookupKey (generate_meta "t0" "v0" id [] false [("extra_key", .null)])
        "extra_key" = some .null :=
  ⟨(generate_meta_envelope "t0" "v0" id [] [("extra_key", .null)]).2.1 rfl,
    (generate_meta_envelope "t0" "v0" id [] [("extra_key", .null)]).2.2.2.1
      "extra_key" .null rfl⟩

/-! ### Fulfillment line totals (C10) -/

/-- C10: each serialized fulfillment line's total price net and gross amounts
equal the quantized undiscounted unit price (net respectively gross) of the
underlying order line multiplied by the fulfillment line quantity, whereas a
with-taxes order line's total price entries come from the pricing engine's
discounted totals. -/
theorem fulfillment_line_totals :
    ∀ (ctx : Ctx) (fl : FulfillmentLineM),
      lookupKey (fulfillment_line_record ctx fl) "total_price_net_amount"
          = some (.num (ctx.quantize fl.order_line.undiscounted_unit_price.net
              fl.order_line.currency * (fl.quantity : ℚ))) ∧
      lookupKey (fulfillment_line_record ctx fl) "total_price_gross_amount"
          = some (.num (ctx.quantize fl.order_line.undiscounted_unit_price.gross
              fl.order_line.currency * (fl.quantity : ℚ))) ∧
      (∀ (p : OrderLinePricing) (l : OrderLineM),
        lookupKey (order_line_record_with_taxes ctx p l) "total_price_net_amount"
            = some (.num (p.totalWithDiscounts l).net) ∧
        lookupKey (order_line_record_with_taxes ctx p l) "total_price_gross_amount"
            = some (.num (p.totalWithDiscounts l).gross)) :=
  fun _ _ => ⟨rfl, rfl, fun _ _ => ⟨rfl, rfl⟩⟩

/-! ### Sample payload generation (C5, C8) -/

/-- C5: evaluation of the sample-generation control flow at zero persisted
entities: an unknown event name and the order events return no document, but
the checkout and page events read the unassigned `payload` local
(UnboundLocalError) and the fulfillment event dereferences `None`
(AttributeError) instead of returning no document. -/
theorem generate_sample_payload_zero_match_behaviour :
    generate_sample_payload gUnit dbNone (.unknown "custom-event") = .ok none ∧
    generate_sample_payload gUnit dbNone .orderCreated = .ok none ∧
    generate_sample_payload gUnit dbNone .orderFullyPaid = .ok none ∧
    generate_sample_payload gUnit dbNone .productCreated = .ok none ∧
    generate_sample_payload gUnit dbNone .checkoutCreated
        = .error .unboundLocalError ∧
    generate_sample_payload gUnit dbNone .pageCreated
        = .error .unboundLocalError ∧
    generate_sample_payload gUnit dbNone .fulfillmentCreated
        = .error .attributeError :=
  ⟨rfl, rfl, rfl, rfl, rfl, rfl, rfl⟩

/-- C8: in checkout sample generation the generated checkout payload's token
entry is replaced with the fixed sentinel `str(uuid.UUID(int=1))`, whatever
the serialized checkout contained, so repeated sample generation on the same
underlying checkout produces the same token. -/
theorem sample_checkout_token_sentinel :
    ∀ (V : Type) (g : SampleGenerators V) (db : SampleDB V) (c : V),
      db.checkout = some c →
      generate_sample_payload g db .checkoutCreated
          = .ok (some [setKey (g.checkout (g.anonymizeCheckout c)) "token"
              (.str uuidInt1)]) ∧
      lookupKey (setKey (g.checkout (g.anonymizeCheckout c)) "token"
          (.str uuidInt1)) "token" = some (.str uuidInt1) := by
  intro V g db c h
  obtain ⟨a1, a2, a3, a4, a5, a6, a7, a8⟩ := db
  change a6 = some c at h
  subst h
  exact ⟨rfl, lookupKey_setKey _ _ _⟩

/-- Witness for C8 on a concrete checkout. -/
theorem sample_checkout_token_sentinel_witness :
    generate_sample_payload gUnit dbCheckout .checkoutCreated
        = .ok (some [setKey (gUnit.checkout (gUnit.anonymizeCheckout ()))
            "token" (.str uuidInt1)]) ∧
    lookupKey (setKey (gUnit.checkout (gUnit.anonymizeCheckout ())) "token"
        (.str uuidInt1)) "token" = some (.str uuidInt1) :=
  sample_checkout_token_sentinel Unit gUnit dbCheckout () rfl

/-! ### Payment payload (C9) -/

theorem lookupKey_paymentAsDict_absent (pd : PaymentDataM) (key : String)
    (h : key ∉ keysOf pd.others) (hg : key ≠ "gateway") (ha : key ≠ "amount")
    (hc : key ≠ "currency") : lookupKey (paymentAsDict pd) key = none := by
  have hb : lookupKey pd.others key = none :=
    Option.not_isSome_iff_eq_none.mp
      (fun hs => h ((mem_keysOf_iff _ _).mpr hs))
  have e1 : ("gateway" == key) = false := beq_eq_false_iff_ne.mpr (Ne.symm hg)
  have e2 : ("amount" == key) = false := beq_eq_false_iff_ne.mpr (Ne.symm ha)
  have e3 : ("currency" == key) = false := beq_eq_false_iff_ne.mpr (Ne.symm hc)
  simp [paymentAsDict, lookupKey, e1, e2, e3, hb]

/-- C9: the payment payload contains the meta envelope and the
payment_method entry exactly when the gateway id parses as a payment-app id;
when it does not parse, the output is the PaymentData dict with the
quantized amount and nothing else; the amount entry always carries the
quantized amount. -/
theorem generate_payment_payload_meta_iff :
    ∀ (ctx : Ctx) (from_payment_app_id : String → Option PaymentAppData)
      (pd : PaymentDataM) (requestor : Option Requestor),
      "meta" ∉ keysOf pd.others → "payment_method" ∉ keysOf pd.others →
      (("meta" ∈ keysOf (generate_payment_payload ctx from_payment_app_id pd
            requestor))
          ↔ (from_payment_app_id pd.gateway).isSome) ∧
      (("payment_method" ∈ keysOf (generate_payment_payload ctx
            from_payment_app_id pd requestor))
          ↔ (from_payment_app_id pd.gateway).isSome) ∧
      (from_payment_app_id pd.gateway = none →
        generate_payment_payload ctx from_payment_app_id pd requestor
          = setKey (paymentAsDict pd) "amount"
              (.num (ctx.quantize pd.amount pd.currency))) ∧
      lookupKey (generate_payment_payload ctx from_payment_app_id pd requestor)
          "amount" = some (.num (ctx.quantize pd.amount pd.currency)) := by
  intro ctx fpai pd requestor hm hp
  have hmBase : lookupKey (paymentAsDict pd) "meta" = none :=
    lookupKey_paymentAsDict_absent pd "meta" hm (by decide) (by decide) (by decide)
  have hpBase : lookupKey (paymentAsDict pd) "payment_method" = none :=
    lookupKey_paymentAsDict_absent pd "payment_method" hp (by decide) (by decide)
      (by decide)
  cases hg : fpai pd.gateway with
  | none =>
      have hres : generate_payment_payload ctx fpai pd requestor
          = setKey (paymentAsDict pd) "amount"
              (.num (ctx.quantize pd.amount pd.currency)) := by
        simp [generate_payment_payload, hg]
      have hmeta : lookupKey (generate_payment_payload ctx fpai pd requestor)
          "meta" = none := by
        rw [hres, lookupKey_setKey_ne _ _ _ _ (by decide), hmBase]
      have hpm : lookupKey (generate_payment_payload ctx fpai pd requestor)
          "payment_method" = none := by
        rw [hres, lookupKey_setKey_ne _ _ _ _ (by decide), hpBase]
      refine ⟨?_, ?_, fun _ => hres, ?_⟩
      · rw [mem_keysOf_iff, hmeta]
        simp
      · rw [mem_keysOf_iff, hpm]
        simp
      · rw [hres]
        exact lookupKey_setKey _ _ _
  | some pad =>
      have hres : generate_payment_payload ctx fpai pd requestor
          = setKey (setKey (setKey (paymentAsDict pd) "amount"
              (.num (ctx.quantize pd.amount pd.currency))) "payment_method"
              (.str pad.name)) "meta" (metaFor ctx requestor) := by
        simp [generate_payment_payload, hg]
      have hmeta : lookupKey (generate_payment_payload ctx fpai pd requestor)
          "meta" = some (metaFor ctx requestor) := by
        rw [hres]
        exact lookupKey_setKey _ _ _
      have hpm : lookupKey (generate_payment_payload ctx fpai pd requestor)
          "payment_method" = some (.str pad.name) := by
        rw [hres, lookupKey_setKey_ne _ _ _ _ (by decide)]
        exact lookupKey_setKey _ _ _
      refine ⟨?_, ?_,
        fun hcontra => absurd hcontra (Option.some_ne_none pad), ?_⟩
      · rw [mem_keysOf_iff, hmeta]
        simp
      · rw [mem_keysOf_iff, hpm]
        simp
      · rw [hres, lookupKey_setKey_ne _ _ _ _ (by decide),
          lookupKey_setKey_ne _ _ _ _ (by decide)]
        exact lookupKey_setKey _ _ _

/-- Witness for C9 at a concrete payment, for a parsing and a non-parsing
gateway id. -/
theorem generate_payment_payload_meta_iff_witness :
    (("meta" ∈ keysOf (generate_payment_payload ctx0
          (fun _ => (none : Option PaymentAppData)) pd0 none))
        ↔ ((fun _ => (none : Option PaymentAppData)) pd0.gateway).isSome) ∧
    (("meta" ∈ keysOf (generate_payment_payload ctx0
          (fun _ => some (PaymentAppData.mk "app1")) pd0 none))
        ↔ ((fun _ => some (PaymentAppData.mk "app1")) pd0.gateway).isSome) :=
  ⟨(generate_payment_payload_meta_iff ctx0 (fun _ => none) pd0 none
      (by decide) (by decide)).1,
    (generate_payment_payload_meta_iff ctx0 (fun _ => some (PaymentAppData.mk
      "app1")) pd0 none (by decide) (by decide)).1⟩

/-! ### Field-set parity between the two monetary regimes (C2) -/

theorem keysOf_line_with_taxes (ctx : Ctx) (p : OrderLinePricing) (l : OrderLineM) :
    keysOf (order_line_record_with_taxes ctx p l)
      = lineKeysShared ++
          ["unit_price_net_amount", "unit_price_gross_amount",
            "total_price_net_amount", "total_price_gross_amount",
            "undiscounted_unit_price_net_amount",
            "undiscounted_unit_price_gross_amount",
            "undiscounted_total_price_net_amount",
            "undiscounted_total_price_gross_amount", "tax_rate"] := rfl

theorem keysOf_line_without_taxes (ctx : Ctx) (orderCurrency : String)
    (useGross : Bool) (l : OrderLineM) :
    keysOf (order_line_record_without_taxes ctx orderCurrency useGross l)
      = lineKeysShared ++
          ["unit_price_base_amount", "total_price_base_amount",
            "undiscounted_unit_price_base_amount",
            "undiscounted_total_price_base_amount"] := rfl

theorem keysOf_order_with_taxes (ctx : Ctx) (p : OrderLinePricing)
    (opr : OrderPricing) (order : OrderM) (requestor : Option Requestor) :
    keysOf (generate_order_payload ctx p opr order requestor true)
      = orderKeysSharedPrefix ++
          ["shipping_price_net_amount", "shipping_price_gross_amount",
            "shipping_tax_rate", "total_net_amount", "total_gross_amount",
            "undiscounted_total_net_amount", "undiscounted_total_gross_amount"]
          ++ orderKeysSharedSuffix := rfl

theorem keysOf_order_without_taxes (ctx : Ctx) (order : OrderM)
    (requestor : Option Requestor) :
    keysOf (generate_order_payload_without_taxes ctx order requestor true)
      = orderKeysSharedPrefix ++
          ["shipping_price_base_amount", "total_base_amount",
            "undiscounted_total_base_amount"]
          ++ orderKeysSharedSuffix := rfl

/-- C2 counterexample: `tax_rate` is a non-price field name (neither a
net/gross pair member nor a base amount) present in the with-taxes line
payload and absent from the without-taxes line payload, so the two regimes
do not share the same non-price field set. -/
theorem order_payload_nonprice_parity_fails :
    nonPriceKeys (order_line_record_with_taxes ctx0 pricing0 line0)
        ≠ nonPriceKeys (order_line_record_without_taxes ctx0 "USD" true line0) ∧
    "tax_rate" ∈ nonPriceKeys (order_line_record_with_taxes ctx0 pricing0 line0) ∧
    "tax_rate" ∉ nonPriceKeys (order_line_record_without_taxes ctx0 "USD" true
      line0) := by
  refine ⟨?_, ?_, ?_⟩ <;>
    simp only [nonPriceKeys, keysOf_line_with_taxes, keysOf_line_without_taxes] <;>
    decide

/-- C2 amended: for the same order the two payload regimes share the same set
of non-price field names except for the tax-rate names, which occur only in
the with-taxes payload (`tax_rate` on each line, `shipping_tax_rate` at the
order level); their price-field subsets are exactly the net/gross pairs with
taxes and the base amounts without. -/
theorem order_payload_field_parity :
    ∀ (ctx : Ctx) (p : OrderLinePricing) (opr : OrderPricing) (order : OrderM)
      (requestor : Option Requestor) (orderCurrency : String) (useGross : Bool)
      (l : OrderLineM),
      nonPriceKeys (order_line_record_with_taxes ctx p l)
          = insert "tax_rate"
              (nonPriceKeys (order_line_record_without_taxes ctx orderCurrency
                useGross l)) ∧
      "tax_rate" ∉ nonPriceKeys (order_line_record_without_taxes ctx
          orderCurrency useGross l) ∧
      priceKeys (order_line_record_with_taxes ctx p l)
          = {"unit_price_net_amount", "unit_price_gross_amount",
              "total_price_net_amount", "total_price_gross_amount",
              "undiscounted_unit_price_net_amount",
              "undiscounted_unit_price_gross_amount",
              "undiscounted_total_price_net_amount",
              "undiscounted_total_price_gross_amount"} ∧
      priceKeys (order_line_record_without_taxes ctx orderCurrency useGross l)
          = {"unit_price_base_amount", "total_price_base_amount",
              "undiscounted_unit_price_base_amount",
              "undiscounted_total_price_base_amount"} ∧
      nonPriceKeys (generate_order_payload ctx p opr order requestor true)
          = insert "shipping_tax_rate"
              (nonPriceKeys (generate_order_payload_without_taxes ctx order
                requestor true)) ∧
      "shipping_tax_rate" ∉ nonPriceKeys (generate_order_payload_without_taxes
          ctx order requestor true) ∧
      priceKeys (generate_order_payload ctx p opr order requestor true)
          = {"shipping_price_net_amount", "shipping_price_gross_amount",
              "total_net_amount", "total_gross_amount",
              "undiscounted_total_net_amount", "undiscounted_total_gross_amount"} ∧
      priceKeys (generate_order_payload_without_taxes ctx order requestor true)
          = {"shipping_price_base_amount", "total_base_amount",
              "undiscounted_total_base_amount"} := by
  intro ctx p opr order requestor orderCurrency useGross l
  refine ⟨?_, ?_, ?_, ?_, ?_, ?_, ?_, ?_⟩ <;>
    simp only [nonPriceKeys, priceKeys, keysOf_line_with_taxes,
      keysOf_line_without_taxes, keysOf_order_with_taxes,
      keysOf_order_without_taxes] <;>
    decide

/-! ### Optional relations resolve to null (C6) -/

/-- C6: whenever an optional relation is absent the corresponding payload
field is null and the composer does not fail: a line without a variant
yields null charge taxes and product metadata; an order without a shipping
method or collection point carries null for those fields in both regimes; a
checkout without a shipping method or collection point likewise; and an
absent requestor resolves to a null issuing principal. -/
theorem optional_relations_resolve_null :
    (∀ l : OrderLineM, l.variant = none →
      charge_taxes l = none ∧
      get_product_metadata_for_order_line l = none ∧
      get_product_type_metadata_for_order_line l = none) ∧
    (∀ (ctx : Ctx) (p : OrderLinePricing) (opr : OrderPricing)
      (requestor : Option Requestor) (withMeta : Bool) (o : OrderM),
      o.shipping_method = none →
      lookupKey (generate_order_payload ctx p opr o requestor withMeta)
          "shipping_method" = some .null ∧
      lookupKey (generate_order_payload_without_taxes ctx o requestor withMeta)
          "shipping_method" = some .null) ∧
    (∀ (ctx : Ctx) (p : OrderLinePricing) (opr : OrderPricing)
      (requestor : Option Requestor) (withMeta : Bool) (o : OrderM),
      o.collection_point = none →
      lookupKey (generate_order_payload ctx p opr o requestor withMeta)
          "collection_point" = some .null ∧
      lookupKey (generate_order_payload_without_taxes ctx o requestor withMeta)
          "collection_point" = some .null) ∧
    (∀ (ctx : Ctx) (c : CheckoutM) (requestor : Option Requestor)
      (linesDictData : List JVal) (dbWarehouse : Option WarehouseM),
      c.shipping_method = none →
      lookupKey (generate_checkout_payload ctx c requestor linesDictData
          dbWarehouse) "shipping_method" = some .null) ∧
    (∀ (ctx : Ctx) (c : CheckoutM) (requestor : Option Requestor)
      (linesDictData : List JVal) (dbWarehouse : Option WarehouseM),
      c.collection_point = none →
      lookupKey (generate_checkout_payload ctx c requestor linesDictData
          dbWarehouse) "collection_point" = some .null) ∧
    (∀ encode : String → Option Int → String,
      generate_requestor encode none = [("id", .null), ("type", .null)]) := by
  refine ⟨?_, ?_, ?_, ?_, ?_, fun _ => rfl⟩
  · intro l h
    obtain ⟨pk, attr, cur, variant, pvid, alloc, pn, vn, sku, sid, vc, up, tp,
      uup, utp⟩ := l
    change variant = none at h
    subst h
    exact ⟨rfl, rfl, rfl⟩
  · intro ctx p opr requestor withMeta o h
    obtain ⟨pk, attr, cur, created, email, orig, chan, sm, sa, ba, cp, ff, pm,
      dc, ln, sp, tot, undisc⟩ := o
    change sm = none at h
    subst h
    cases withMeta <;> exact ⟨rfl, rfl⟩
  · intro ctx p opr requestor withMeta o h
    obtain ⟨pk, attr, cur, created, email, orig, chan, sm, sa, ba, cp, ff, pm,
      dc, ln, sp, tot, undisc⟩ := o
    change cp = none at h
    subst h
    cases withMeta <;> exact ⟨rfl, rfl⟩
  · intro ctx c requestor linesDictData dbWarehouse h
    obtain ⟨tok, attr, cur, created, chan, user, ba, sa, sm, cp⟩ := c
    change sm = none at h
    subst h
    rfl
  · intro ctx c requestor linesDictData dbWarehouse h
    obtain ⟨tok, attr, cur, created, chan, user, ba, sa, sm, cp⟩ := c
    change cp = none at h
    subst h
    rfl

/-- Witness for C6 on concrete entities with all optional relations absent. -/
theorem optional_relations_resolve_null_witness :
    charge_taxes line0 = none ∧
    lookupKey (generate_order_payload ctx0 pricing0 orderPricing0 order0 none
        true) "shipping_method" = some .null ∧
    lookupKey (generate_order_payload ctx0 pricing0 orderPricing0 order0 none
        true) "collection_point" = some .null ∧
    lookupKey (generate_checkout_payload ctx0 checkout0 none [] none)
        "shipping_method" = some .null ∧
    lookupKey (generate_checkout_payload ctx0 checkout0 none [] none)
        "collection_point" = some .null ∧
    generate_requestor ctx0.encode none = [("id", .null), ("type", .null)] :=
  ⟨(optional_relations_resolve_null.1 line0 rfl).1,
    (optional_relations_resolve_null.2.1 ctx0 pricing0 orderPricing0 none true
      order0 rfl).1,
    (optional_relations_resolve_null.2.2.1 ctx0 pricing0 orderPricing0 none
      true order0 rfl).1,
    optional_relations_resolve_null.2.2.2.1 ctx0 checkout0 none [] none rfl,
    optional_relations_resolve_null.2.2.2.2.1 ctx0 checkout0 none [] none rfl,
    optional_relations_resolve_null.2.2.2.2.2 ctx0.encode⟩

end SaleorPayloads
